import Mathlib

/-!
# Verification of the job-portal backend's screening and account logic

Shallow embedding of the Python backend (`backend/app`) in Lean 4.

Conventions used throughout:
* Python `float` values are modelled as rationals (`ℚ`); `round(x, 2)` is
  modelled by rounding `x * 100` to the nearest integer.
* Python dictionaries read through `dict.get(key, default)` are modelled as
  structures whose fields carry those defaults; an absent key is the default
  field value.
* External libraries (bcrypt via passlib, scikit-learn TF-IDF) are modelled as
  explicit function parameters, with their documented contract as a hypothesis.
* The handful of regular expressions used by `resume_parser.py` are compiled by
  hand into a small backtracking matcher (`RE`) that mirrors Python `re.search`
  / `re.findall` semantics (leftmost match, greedy quantifiers, left-biased
  alternation).
-/

namespace JobPortal

/-!
The string helpers below work on `List Char` with plain structural recursion
(the corresponding `String` library functions use well-founded recursion on
byte positions, which the kernel cannot evaluate). Lowercasing is ASCII, which
covers every string these functions are applied to.
-/

/-- `str.split()` on whitespace, discarding empty pieces. -/
def wordsAux (acc : List Char) : List Char → List (List Char)
  | [] => if acc.isEmpty then [] else [acc.reverse]
  | c :: rest =>
    if c.isWhitespace then
      if acc.isEmpty then wordsAux [] rest else acc.reverse :: wordsAux [] rest
    else wordsAux (c :: acc) rest

/-- `" ".join(words)`. -/
def joinWithSpace : List (List Char) → List Char
  | [] => []
  | [w] => w
  | w :: ws => w ++ ' ' :: joinWithSpace ws

/-- `str.strip()`. -/
def trimChars (cs : List Char) : List Char :=
  ((cs.dropWhile Char.isWhitespace).reverse.dropWhile Char.isWhitespace).reverse

def strTrim (s : String) : String := String.mk (trimChars s.data)

def lowerChars (cs : List Char) : List Char := cs.map Char.toLower

/-- Python `normalize_text` (resume_parser.py): `" ".join(text.lower().split())`
— lowercase and collapse all whitespace runs. -/
def normalize_text (text : String) : String :=
  String.mk (joinWithSpace (wordsAux [] (lowerChars text.data)))

/-- Python `_normalize_phrase` (resume_parser.py):
`re.sub(r"\s+", " ", phrase.strip().lower())` — the same lowercase /
whitespace-collapsing normalization as `normalize_text`. -/
def normalize_phrase (phrase : String) : String :=
  String.mk (joinWithSpace (wordsAux [] (lowerChars phrase.data)))

/-- `needle` starts `hay`. -/
def leadsChars : List Char → List Char → Bool
  | [], _ => true
  | _ :: _, [] => false
  | a :: as, b :: bs => a == b && leadsChars as bs

/-- `needle` occurs contiguously inside `hay`. -/
def infixChars (needle : List Char) : List Char → Bool
  | [] => needle.isEmpty
  | b :: rest => leadsChars needle (b :: rest) || infixChars needle rest

/-- Python's substring operator `needle in hay`. -/
def strContains (hay needle : String) : Bool :=
  infixChars needle.toList hay.toList

/-- Lexicographic (code-point) order on strings, as used by Python `sorted`. -/
def charListLe : List Char → List Char → Bool
  | [], _ => true
  | _ :: _, [] => false
  | a :: as, b :: bs =>
    if a < b then true else if b < a then false else charListLe as bs

def insertStr (x : String) : List String → List String
  | [] => [x]
  | y :: ys => if charListLe x.toList y.toList then x :: y :: ys else y :: insertStr x ys

/-- Python `sorted` on a list of strings. -/
def sortStrings : List String → List String
  | [] => []
  | x :: xs => insertStr x (sortStrings xs)

/-!
## A small regular-expression engine

Only the constructs appearing in `resume_parser.py`'s patterns are supported.
The matcher is continuation-passing with explicit fuel; alternation is
left-biased and `star` is greedy, matching CPython `re` behaviour on these
patterns (none of which have a nullable repetition body).
-/

inductive RE where
  | eps : RE
  | cls : (Char → Bool) → RE
  | seq : RE → RE → RE
  | alt : RE → RE → RE
  | star : RE → RE
  | grp : Nat → RE → RE
  | wb : RE

/-- Captured groups: group number paired with the captured characters. -/
abbrev Caps := List (Nat × List Char)

/-- A match result: captures, the character just before the remaining input,
and the remaining input. -/
abbrev MatchRes := Caps × Option Char × List Char

def isWordChar (c : Char) : Bool := c.isAlphanum || c == '_'

/-- Python `\b`: the word-character status differs on the two sides. -/
def atBoundary (prev : Option Char) (s : List Char) : Bool :=
  let l := match prev with | some c => isWordChar c | none => false
  let r := match s with | c :: _ => isWordChar c | [] => false
  l != r

def reMatch : Nat → RE → Option Char → List Char → Caps →
    (Option Char → List Char → Caps → Option MatchRes) → Option MatchRes
  | 0, _, _, _, _, _ => none
  | _ + 1, .eps, prev, s, caps, k => k prev s caps
  | _ + 1, .cls p, _, s, caps, k =>
    match s with
    | [] => none
    | c :: rest => if p c then k (some c) rest caps else none
  | fuel + 1, .seq a b, prev, s, caps, k =>
    reMatch fuel a prev s caps (fun p2 s2 c2 => reMatch fuel b p2 s2 c2 k)
  | fuel + 1, .alt a b, prev, s, caps, k =>
    match reMatch fuel a prev s caps k with
    | some res => some res
    | none => reMatch fuel b prev s caps k
  | fuel + 1, .star r, prev, s, caps, k =>
    match reMatch fuel r prev s caps
        (fun p2 s2 c2 => reMatch fuel (.star r) p2 s2 c2 k) with
    | some res => some res
    | none => k prev s caps
  | fuel + 1, .grp n r, prev, s, caps, k =>
    reMatch fuel r prev s caps
      (fun p2 s2 c2 => k p2 s2 ((n, s.take (s.length - s2.length)) :: c2))
  | _ + 1, .wb, prev, s, caps, k =>
    if atBoundary prev s then k prev s caps else none

/-- `re.search` scan: try the pattern at each start position, leftmost first. -/
def reSearchAux (fuel : Nat) (r : RE) : Option Char → List Char → Option MatchRes
  | prev, s =>
    match reMatch fuel r prev s [] (fun p2 s2 c2 => some (c2, p2, s2)) with
    | some res => some res
    | none =>
      match s with
      | [] => none
      | c :: rest => reSearchAux fuel r (some c) rest

def reFuel (cs : List Char) : Nat := 8 * cs.length + 200

/-- Python `re.search(pattern, s)`, returning the captured groups on success. -/
def reSearch (r : RE) (s : String) : Option Caps :=
  (reSearchAux (reFuel s.toList) r none s.toList).map (fun res => res.1)

/-- Repeatedly search, resuming after each match (all patterns used here
consume at least one character, so every iteration makes progress). -/
def reFindAllAux (fuel : Nat) (r : RE) : Nat → Option Char → List Char → List Caps
  | 0, _, _ => []
  | n + 1, prev, s =>
    match reSearchAux fuel r prev s with
    | none => []
    | some (caps, p2, s2) => caps :: reFindAllAux fuel r n p2 s2

/-- Python `re.findall(pattern, s)` (capture tuples). -/
def reFindAll (r : RE) (s : String) : List Caps :=
  let cs := s.toList
  reFindAllAux (reFuel cs) r (cs.length + 1) none cs

/-! Pattern building blocks. -/

def rchr (c : Char) : RE := .cls (fun x => x == c)

/-- Case-insensitive literal character (for patterns compiled with
`re.IGNORECASE`). -/
def richr (c : Char) : RE := .cls (fun x => x.toLower == c)

def rdigit : RE := .cls Char.isDigit

def rspace : RE := .cls Char.isWhitespace

def rseq (l : List RE) : RE := l.foldr .seq .eps

def rstr (s : String) : RE := rseq (s.toList.map rchr)

def ristr (s : String) : RE := rseq (s.toList.map richr)

def ropt (r : RE) : RE := .alt r .eps

def rplus (r : RE) : RE := .seq r (.star r)

/-- The number group `(\d+\.?\d*)` of the grade patterns, as group 1. -/
def rnum : RE := .grp 1 (rseq [rplus rdigit, ropt (rchr '.'), .star rdigit])

/-- The optional separator `[:\-]?` of the grade patterns. -/
def rsep : RE := ropt (.cls (fun c => c == ':' || c == '-'))

def digitsToNat (cs : List Char) : Nat :=
  cs.foldl (fun a c => a * 10 + (c.toNat - 48)) 0

/-- Python `int(...)` on a captured string: succeeds only on all digits. -/
def parseNatDigits (cs : List Char) : Option Nat :=
  if cs ≠ [] && cs.all Char.isDigit then some (digitsToNat cs) else none

def splitOnChar (sep : Char) : List Char → List (List Char)
  | [] => [[]]
  | c :: rest =>
    if c == sep then [] :: splitOnChar sep rest
    else
      match splitOnChar sep rest with
      | [] => [[c]]
      | w :: ws => (c :: w) :: ws

/-- Python `float(...)` on a string captured by `(\d+\.?\d*)`. -/
def parseFloatQ (cs : List Char) : Option ℚ :=
  if cs ≠ [] && cs.all (fun c => c.isDigit || c == '.') then
    match splitOnChar '.' cs with
    | [ip] => some ((digitsToNat ip : ℚ))
    | [ip, fp] =>
      some ((digitsToNat ip : ℚ) + (digitsToNat fp : ℚ) / ((10 : ℚ) ^ fp.length))
    | _ => none
  else none

/-! ## Grade extraction (resume_parser.py, `GRADE_*` and
`extract_grade_from_text`) -/

/-- Floor of a rational (`num` and `den` are already reduced, `den > 0`). -/
def ratFloor (q : ℚ) : ℤ := Int.fdiv q.num (q.den : ℤ)

/-- Round to the nearest integer, halves up. -/
def roundQ (q : ℚ) : ℤ := ratFloor (q + 1 / 2)

/-- Python `round(x, 2)` (CPython rounds the nearest double half-to-even; the
two agree on every value arising in the claims, which are exact at two
decimals). -/
def round2 (q : ℚ) : ℚ := ((roundQ (q * 100) : ℤ) : ℚ) / 100

/-- `GRADE_CONVERSION`: conversion of a raw grade value to a percentage,
keyed by grade family; unknown keys fall back to the identity
(`GRADE_CONVERSION.get(grade_type, lambda x: x)`). -/
def GRADE_CONVERSION (grade_type : String) (x : ℚ) : ℚ :=
  if grade_type = "cgpa_10" then x * 10
  else if grade_type = "cgpa_10_strict" then (x - 0.5) * 10
  else if grade_type = "gpa_4" then x / 4 * 100
  else if grade_type = "percentage" then x
  else x

/-- Range validation in `extract_grade_from_text` (0–10 / 0–4 / 0–100). -/
def gradeInRange (grade_type : String) (v : ℚ) : Bool :=
  if grade_type = "cgpa_10" then !(decide (v < 0) || decide (v > 10))
  else if grade_type = "gpa_4" then !(decide (v < 0) || decide (v > 4))
  else if grade_type = "percentage" then !(decide (v < 0) || decide (v > 100))
  else true

/- The 11 grade patterns, in dictionary order. Note that the text being
searched has been lowercased by `normalize_text`, while several alternatives
are spelled in upper case in the source patterns — those branches are kept
verbatim here. -/

def reCgpa1 : RE := rseq [rnum, .star rspace, .alt (rstr "cgpa") (rstr "CGPA")]
def reCgpa2 : RE := rseq [rstr "CGPA", .star rspace, rsep, .star rspace, rnum]
def reCgpa3 : RE :=
  rseq [.alt (rstr "cgpa") (rstr "CGPA"), .star rspace, ropt (rstr "of"), .star rspace,
    rnum, .star rspace, rchr '/', .star rspace, rstr "10"]
def reCgpa4 : RE :=
  rseq [rnum, .star rspace, rchr '/', .star rspace, rstr "10", .star rspace,
    .alt (rstr "cgpa") (rstr "CGPA")]
def reGpa1 : RE := rseq [rnum, .star rspace, .alt (rstr "gpa") (rstr "GPA")]
def reGpa2 : RE :=
  rseq [rstr "GPA", .star rspace, rsep, .star rspace, rnum, .star rspace, rchr '/',
    .star rspace, rchr '4']
def reGpa3 : RE :=
  rseq [rnum, .star rspace, rchr '/', .star rspace, rchr '4', .star rspace,
    .alt (rstr "gpa") (rstr "GPA")]
def rePct1 : RE := rseq [rnum, .star rspace, rchr '%']
def rePct2 : RE := rseq [rnum, .star rspace, rstr "percent"]
def rePct3 : RE := rseq [rstr "percentage", .star rspace, rsep, .star rspace, rnum]
def rePct4 : RE :=
  rseq [rstr "marks", .star rspace, rsep, .star rspace, rnum, ropt (rchr '%')]

/-- `GRADE_PATTERNS`, in dictionary (insertion) order. -/
def GRADE_PATTERNS : List (String × List RE) :=
  [("cgpa_10", [reCgpa1, reCgpa2, reCgpa3, reCgpa4]),
   ("gpa_4", [reGpa1, reGpa2, reGpa3]),
   ("percentage", [rePct1, rePct2, rePct3, rePct4])]

/-- Result of `extract_grade_from_text` (the `confidence` and `context`
presentation fields of the Python dict are omitted; `raw_value` keeps the
parsed numeric value). -/
structure GradeInfo where
  raw_value : ℚ
  grade_type : String
  normalized_percentage : ℚ
deriving Repr, DecidableEq

/-- One pattern family of `extract_grade_from_text`: first `re.search` hit
whose value parses and is in range wins; an out-of-range value falls through
to the family's next pattern (the `continue`). -/
def gradeFamilySearch (grade_type : String) : List RE → String → Option GradeInfo
  | [], _ => none
  | p :: ps, tn =>
    match reSearch p tn with
    | none => gradeFamilySearch grade_type ps tn
    | some caps =>
      match (caps.lookup 1).bind parseFloatQ with
      | none => gradeFamilySearch grade_type ps tn
      | some v =>
        if gradeInRange grade_type v then
          some { raw_value := v, grade_type := grade_type,
                 normalized_percentage := round2 (GRADE_CONVERSION grade_type v) }
        else gradeFamilySearch grade_type ps tn

def gradeFromPatterns : List (String × List RE) → String → Option GradeInfo
  | [], _ => none
  | (grade_type, pats) :: rest, tn =>
    match gradeFamilySearch grade_type pats tn with
    | some g => some g
    | none => gradeFromPatterns rest tn

/-- Python `extract_grade_from_text`: normalize the text, then try the grade
pattern families in order (the dropped `context` argument only fills the
omitted presentation fields). -/
def extract_grade_from_text (text : String) : Option GradeInfo :=
  gradeFromPatterns GRADE_PATTERNS (normalize_text text)

/-! ## Experience estimation (resume_parser.py, `YEARS_PATTERN`,
`DATE_RANGE_PATTERN`, `estimate_years_of_experience`) -/

/-- `YEARS_PATTERN`: `(\d{1,2})\s*(\+)?\s*(?:years?|yrs?)\b`, IGNORECASE. -/
def reYears : RE :=
  rseq [.grp 1 (rseq [rdigit, ropt rdigit]), .star rspace, ropt (.grp 2 (rchr '+')),
    .star rspace,
    .alt (rseq [ristr "year", ropt (richr 's')]) (rseq [ristr "yr", ropt (richr 's')]),
    .wb]

def rYear20 : RE := rseq [rchr '2', rchr '0', rdigit, rdigit]

def rYear19 : RE := rseq [rchr '1', rchr '9', rdigit, rdigit]

/-- `DATE_RANGE_PATTERN`:
`(20\d{2}|19\d{2})\s*[-–—]\s*(20\d{2}|19\d{2}|present|current)`, IGNORECASE. -/
def reDateRange : RE :=
  rseq [.grp 1 (.alt rYear20 rYear19), .star rspace,
    .cls (fun c => c == '-' || c == '–' || c == '—'), .star rspace,
    .grp 2 (.alt rYear20 (.alt rYear19 (.alt (ristr "present") (ristr "current"))))]

/-- The explicit year mentions: `int(match[0])` over `YEARS_PATTERN.findall`. -/
def yearsMentions (text : String) : List Nat :=
  (reFindAll reYears text).filterMap (fun caps => (caps.lookup 1).map digitsToNat)

/-- `DATE_RANGE_PATTERN.findall`: the (start, end) capture pairs. -/
def dateRangeMatches (text : String) : List (List Char × List Char) :=
  (reFindAll reDateRange text).filterMap (fun caps =>
    match caps.lookup 1, caps.lookup 2 with
    | some a, some b => some (a, b)
    | _, _ => none)

/-- Duration of one date range: `present`/`current` resolve to the current
calendar year (`datetime.now().year`, passed in as `currentYear`); a parse
failure models the `except: continue`. -/
def rangeDuration (currentYear : Int) (se : List Char × List Char) : Option Int :=
  let endStr := String.mk (lowerChars se.2)
  match parseNatDigits se.1 with
  | none => none
  | some sy =>
    if endStr = "present" || endStr = "current" then some (currentYear - sy)
    else
      match parseNatDigits se.2 with
      | none => none
      | some ey => some ((ey : Int) - (sy : Int))

/-- Python `estimate_years_of_experience`, with `datetime.now().year` passed
in explicitly. -/
def estimate_years_of_experience (currentYear : Int) (text : String) : ℚ :=
  let max_years_explicit : Int :=
    (yearsMentions text).foldl (fun a y => max a (y : Int)) 0
  let date_matches := dateRangeMatches text
  let durations := date_matches.filterMap (rangeDuration currentYear)
  let max_years_dates : Int := durations.foldl max 0
  let total_years := max max_years_explicit max_years_dates
  let total_years :=
    if date_matches ≠ [] then max total_years (durations.foldl (· + ·) 0)
    else total_years
  (total_years : ℚ)

/-- Largest explicit `N years` mention (0 when there is none). -/
def explicitMentionMax (text : String) : Int :=
  (yearsMentions text).foldl (fun a y => max a (y : Int)) 0

/-- Largest single date-range duration (0 when there is none). -/
def largestRangeDuration (currentYear : Int) (text : String) : Int :=
  ((dateRangeMatches text).filterMap (rangeDuration currentYear)).foldl max 0

/-- Sum of all date-range durations. -/
def totalRangeDuration (currentYear : Int) (text : String) : Int :=
  ((dateRangeMatches text).filterMap (rangeDuration currentYear)).foldl (· + ·) 0

/-! ## Skill extraction (resume_parser.py, `SKILL_SYNONYMS`,
`build_canonical_map`, `extract_skills_lexicon`, `canonicalize_skills`) -/

/-- `SKILL_SYNONYMS`, in dictionary (insertion) order. -/
def SKILL_SYNONYMS : List (String × List String) :=
  [("python", ["py", "python3", "python2"]),
   ("java", ["java8", "java11", "java17", "java 8", "java 11"]),
   ("javascript", ["js", "node", "nodejs", "node.js", "ecmascript"]),
   ("typescript", ["ts"]),
   ("sql", ["postgresql", "postgres", "mysql", "sqlite", "mariadb", "tsql", "t-sql",
     "oracle", "sql server"]),
   ("nosql", ["mongodb", "mongo", "dynamodb", "cassandra", "couchdb"]),
   ("react", ["reactjs", "react.js"]),
   ("angular", ["angularjs", "angular.js"]),
   ("vue", ["vuejs", "vue.js"]),
   ("django", []),
   ("flask", []),
   ("fastapi", ["fast api"]),
   ("springboot", ["spring boot", "spring"]),
   ("dotnet", [".net", "asp.net", "c#", "csharp"]),
   ("aws", ["amazon web services", "ec2", "s3", "lambda"]),
   ("azure", ["microsoft azure"]),
   ("gcp", ["google cloud", "google cloud platform"]),
   ("docker", ["containerization"]),
   ("kubernetes", ["k8s"]),
   ("linux", ["unix", "ubuntu", "centos", "redhat"]),
   ("git", ["github", "gitlab", "bitbucket", "version control"]),
   ("rest", ["restful", "rest api", "restful api"]),
   ("graphql", ["graph ql"]),
   ("microservices", ["micro services"]),
   ("kafka", ["apache kafka"]),
   ("redis", []),
   ("elasticsearch", ["elastic search"]),
   ("pandas", []),
   ("numpy", []),
   ("nlp", ["natural language processing", "nlg", "nlu"]),
   ("computer vision", ["cv", "image processing"]),
   ("scikit-learn", ["sklearn", "scikit learn"]),
   ("tensorflow", ["tensor flow"]),
   ("pytorch", ["torch"]),
   ("keras", []),
   ("machine learning", ["ml", "artificial intelligence", "ai"]),
   ("deep learning", ["neural networks", "dl"]),
   ("data analysis", ["data analytics"]),
   ("ci/cd", ["cicd", "continuous integration", "continuous delivery"]),
   ("terraform", []),
   ("ansible", []),
   ("jenkins", [])]

/-- `build_canonical_map` / `CANON_MAP`: every normalized variant maps to its
normalized canonical form (the variant keys are pairwise distinct, so
association-list lookup agrees with the Python dict). -/
def CANON_MAP : List (String × String) :=
  (SKILL_SYNONYMS.map (fun cs =>
    let cn := normalize_phrase cs.1
    (cn, cn) :: cs.2.map (fun syn => (normalize_phrase syn, cn)))).flatten

def canonOf (s : String) : String := ((CANON_MAP.lookup s).getD s)

/-- Python `extract_skills_lexicon` (first component: the sorted canonical
skill list). The Python condition is
`form in text or re.search(rf"\b{re.escape(form)}\b", text)`; the regex
disjunct matches only when the escaped literal occurs as a substring, so the
condition is equivalent to plain substring containment, which is what is
embedded here. -/
def extract_skills_lexicon (text : String) : List String :=
  let tn := normalize_text text
  let keys :=
    (SKILL_SYNONYMS.map (fun cs =>
      (cs.1 :: cs.2).filterMap (fun form =>
        let fn := normalize_phrase form
        if fn ≠ "" && strContains tn fn then some (canonOf fn) else none))).flatten
  sortStrings keys.eraseDups

/-- Python `canonicalize_skills`: map through `CANON_MAP`, deduplicate
(`set`), sort. -/
def canonicalize_skills (skills : List String) : List String :=
  sortStrings ((skills.map (fun s => canonOf (normalize_phrase s))).eraseDups)

/-! ## Similarity (resume_parser.py, `compute_similarity`) -/

/-- Python `compute_similarity`: 0.6 × exact-match ratio + 0.4 × TF-IDF cosine
similarity. The scikit-learn cosine similarity is external and passed in as
`cosine`; `none` models the `except` branch (the whole computation then
returns 0.0). -/
def compute_similarity (cosine : List String → List String → Option ℚ)
    (candidate_skills required_skills : List String) : ℚ :=
  if candidate_skills.isEmpty || required_skills.isEmpty then 0
  else
    match cosine candidate_skills required_skills with
    | none => 0
    | some cs =>
      let exact_matches :=
        (candidate_skills.eraseDups.filter (fun s => required_skills.contains s)).length
      let exactFrac : ℚ := (exact_matches : ℚ) / (required_skills.length : ℚ)
      exactFrac * 0.6 + cs * 0.4

/-! ## Work authorization (resume_parser.py, `WORK_AUTH_PHRASES`,
`has_work_authorization`) -/

def WORK_AUTH_PHRASES : List String :=
  ["authorized to work", "eligible to work", "no sponsorship required",
   "u.s. citizen", "us citizen", "green card", "permanent resident",
   "work permit", "can work in", "authorized in"]

def has_work_authorization (text : String) : Bool :=
  WORK_AUTH_PHRASES.any (fun phrase => strContains (normalize_text text) phrase)

/-! ## Education levels and field matching (resume_parser.py,
`DEGREE_ORDER`, `FIELD_SYNONYMS`, `normalize_field_name`,
`check_field_match`, `get_highest_qualification`) -/

def DEGREE_ORDER : List (String × Nat) :=
  [("none", 0), ("10th", 1), ("12th", 2), ("diploma", 2), ("bachelor", 3),
   ("master", 4), ("phd", 5)]

/-- `DEGREE_ORDER.get(level, 0)`. -/
def degreeOrderOf (level : String) : Nat := (DEGREE_ORDER.lookup level).getD 0

def FIELD_SYNONYMS : List (String × List String) :=
  [("computer science",
    ["cs", "cse", "computer science and engineering", "computer applications",
     "computing"]),
   ("information technology", ["it", "information tech", "info tech"]),
   ("software engineering", ["se", "software development"]),
   ("electronics", ["ece", "electronics and communication",
     "electronics & communication"]),
   ("mechanical", ["me", "mechanical engineering"]),
   ("civil", ["ce", "civil engineering"]),
   ("electrical", ["ee", "electrical engineering", "eee"])]

def normFieldLoop : List (String × List String) → String → String
  | [], fl => fl
  | (canonical, synonyms) :: rest, fl =>
    if fl = canonical || synonyms.contains fl then canonical
    else if synonyms.any (fun syn => strContains fl syn || strContains syn fl) then
      canonical
    else normFieldLoop rest fl

/-- Python `normalize_field_name` (`field.lower().strip()`, then the synonym
groups). -/
def normalize_field_name (f : String) : String :=
  if f = "" then ""
  else normFieldLoop FIELD_SYNONYMS (String.mk (trimChars (lowerChars f.data)))

def fieldMatchLoop (cn : String) (accept_related : Bool) : List String → Bool × String
  | [] => (false, "")
  | req :: rest =>
    let rn := normalize_field_name req
    if cn = rn then (true, req)
    else if accept_related &&
        (strContains cn rn || strContains rn cn ||
         FIELD_SYNONYMS.any (fun cs =>
           (cn = cs.1 || cs.2.contains cn) && (rn = cs.1 || cs.2.contains rn))) then
      (true, req)
    else fieldMatchLoop cn accept_related rest

/-- Python `check_field_match`. -/
def check_field_match (candidate_field : String) (required_fields : List String)
    (accept_related : Bool) : Bool × String :=
  if candidate_field = "" || required_fields.isEmpty then (false, "")
  else fieldMatchLoop (normalize_field_name candidate_field) accept_related required_fields

/-- One detected qualification (resume_parser.py education entry; the
`institution` / `detected_text` presentation fields are omitted). -/
structure Qualification where
  level : String
  field : Option String := none
  year : Option Int := none
  grade : Option GradeInfo := none
deriving Repr, DecidableEq

/-- Python `get_highest_qualification`: `max(..., key=DEGREE_ORDER)` keeps the
first of equally-ranked entries, like the fold below. -/
def get_highest_qualification (qualifications : List Qualification) : Qualification :=
  match qualifications with
  | [] => { level := "none", field := none, year := none, grade := none }
  | q :: qs =>
    qs.foldl (fun best cur =>
      if degreeOrderOf cur.level > degreeOrderOf best.level then cur else best) q

/-! ## Job rules (the `rules` dictionary as read by `evaluate_resume`)

Each structure field's default value is the default of the corresponding
`dict.get(key, default)` in resume_parser.py, so the structure with all
fields defaulted models the empty rules dictionary. -/

/-- `minimum_qualification.grade` (`min_grade_config`): `.get("required")`
defaults to falsy, `.get("normalized", 0)` to 0. -/
structure MinGradeCfg where
  required : Bool := false
  normalized : ℚ := 0
deriving Repr, DecidableEq

/-- `minimum_qualification` (`min_qual_config`). -/
structure MinQualCfg where
  level : String := "12th_diploma"
  grade : MinGradeCfg := {}
deriving Repr, DecidableEq

/-- `degree_requirement.grade` (`degree_grade_config`): Python tests the dict
itself for truthiness, so `none` models an absent or empty dict. -/
structure DegreeGradeCfg where
  normalized : ℚ := 0
deriving Repr, DecidableEq

/-- `degree_requirement` (`degree_req_config`). -/
structure DegreeReqCfg where
  enabled : Bool := false
  level : String := "bachelor"
  fields : List String := []
  accept_related_fields : Bool := false
  grade : Option DegreeGradeCfg := none
deriving Repr, DecidableEq

/-- `alternative_paths.experience_substitute` (`exp_substitute`). -/
structure ExpSubstituteCfg where
  enabled : Bool := false
  years_required : ℚ := 5
deriving Repr, DecidableEq

structure AltPathsCfg where
  experience_substitute : ExpSubstituteCfg := {}
deriving Repr, DecidableEq

/-- `education_requirements` (`education_req`). -/
structure EducationReqCfg where
  enabled : Bool := false
  minimum_qualification : MinQualCfg := {}
  degree_requirement : DegreeReqCfg := {}
  alternative_paths : AltPathsCfg := {}
deriving Repr, DecidableEq

/-- `scoring.weights`, defaults 25 / 15 / 15 / 20 / 25. -/
structure Weights where
  skills_all : ℚ := 25
  skills_any : ℚ := 15
  experience : ℚ := 15
  similarity : ℚ := 20
  education : ℚ := 25
deriving Repr, DecidableEq

/-- `scoring` (`scoring_config`): enabled defaults true, threshold 50. -/
structure ScoringCfg where
  enabled : Bool := true
  threshold : ℚ := 50
  weights : Weights := {}
deriving Repr, DecidableEq

/-- The screening rules dictionary, with the defaults applied by
`evaluate_resume`'s `rules.get(...)` calls. -/
structure JobRules where
  required_all : List String := []
  required_any : List String := []
  any_min : Nat := 0
  min_years : ℚ := 0
  forbidden_keywords : List String := []
  similarity_threshold : ℚ := 0.3
  education_requirements : EducationReqCfg := {}
  require_work_auth : Bool := false
  scoring : ScoringCfg := {}
deriving Repr, DecidableEq

/-! ## The main evaluation (resume_parser.py, `evaluate_resume`) -/

/-- The outputs of the extraction phase of `evaluate_resume` (lines 580–602):
the candidate skill list before the final canonicalization (lexicon hit list,
or the TF-IDF fallback — the latter is external), the estimated years of
experience, the detected education entries and the work-authorization flag.
The rule evaluation, scoring and decision are proved for arbitrary values of
these signals. -/
structure ResumeSignals where
  skills_raw : List String
  years_experience : ℚ
  education_entries : List Qualification
  has_auth : Bool

/-- The fields of the explanation document returned by `evaluate_resume`
that the claims are about, plus the two decision inputs `passed_critical` and
`optional_gates` (the `critical_gates` / `optional_gates` lists of the
decision block). The human-readable reason strings are omitted. -/
structure EvalResult where
  decision : String
  score : Option ℚ
  passed : Bool
  passed_critical : Bool
  optional_gates : List Bool
  candidate_skills : List String
  matched_required_all : List String
  missing_required_all : List String
  matched_required_any : List String
  missing_required_any : List String
  target_skills : List String
  similarity : ℚ
  similarity_threshold : ℚ
  estimated_years : ℚ
  min_required_years : ℚ
  meets_experience : Bool
  work_auth_required : Bool
  work_auth_found : Bool
  work_auth_meets : Bool
  forbidden_found : List String
  forbidden_passed : Bool
  scoring_enabled : Bool
  score_threshold : ℚ
deriving Repr, DecidableEq

/-- The final-decision block of `evaluate_resume` (lines 884–901):
with scoring enabled and a computed score, selection requires the critical
gate plus (score at threshold or at least 4 of the 6 optional gates);
without scoring, the critical gate plus at least 4 optional gates. -/
def final_decision (scoring_enabled : Bool) (score : Option ℚ)
    (score_threshold : ℚ) (passed_critical : Bool) (passed_optional : Nat) : Bool :=
  if scoring_enabled then
    match score with
    | some s =>
      passed_critical &&
        (decide (s ≥ score_threshold) || decide (passed_optional ≥ 4))
    | none => passed_critical && decide (passed_optional ≥ 4)
  else passed_critical && decide (passed_optional ≥ 4)

/-- The scoring block of `evaluate_resume` (lines 819–877), recomputing the
matched-skill lists from the same inputs the rule checks use. Returns the
final capped, rounded score. -/
def resume_score (rules : JobRules) (candidate_skills : List String)
    (years_experience : ℚ) (highest_qualification : Qualification)
    (similarity : ℚ) : ℚ :=
  let required_all := canonicalize_skills rules.required_all
  let required_any := canonicalize_skills rules.required_any
  let matched_all := required_all.filter (fun s => candidate_skills.contains s)
  let matched_any := required_any.filter (fun s => candidate_skills.contains s)
  let w := rules.scoring.weights
  let s1 : ℚ :=
    if required_all.isEmpty then w.skills_all
    else w.skills_all * ((matched_all.length : ℚ) / (required_all.length : ℚ))
  let s2 : ℚ := s1 +
    (if !required_any.isEmpty && decide (rules.any_min > 0) then
      w.skills_any * min 1 ((matched_any.length : ℚ) / (rules.any_min : ℚ))
    else w.skills_any)
  let s3 : ℚ := s2 +
    (if rules.min_years > 0 then
      w.experience * min 1 (years_experience / rules.min_years)
    else w.experience)
  let s4 : ℚ := s3 +
    w.similarity * max 0 (min 1 (similarity / max rules.similarity_threshold 0.01))
  let s5 : ℚ := s4 +
    (if rules.education_requirements.enabled then
      let min_level_required := rules.education_requirements.minimum_qualification.level
      let candidate_level_order := degreeOrderOf highest_qualification.level
      let part1 : ℚ :=
        if min_level_required ≠ "" then
          let required_level_order := degreeOrderOf
            (if min_level_required = "12th_diploma" then "12th" else min_level_required)
          (w.education * 0.5) *
            min 1 ((candidate_level_order : ℚ) / ((max required_level_order 1 : Nat) : ℚ))
        else 0
      let part2 : ℚ :=
        match highest_qualification.grade with
        | some g => (w.education * 0.5) * min 1 (g.normalized_percentage / 100)
        | none => w.education * 0.5
      part1 + part2
    else w.education)
  min 100 (round2 s5)

/-- The rule-check, scoring and decision phases of `evaluate_resume`
(lines 604–953), for a resume whose text extraction and signal extraction
already happened. `cosine` is the external TF-IDF cosine similarity used by
`compute_similarity`. -/
def evaluate_resume_core (cosine : List String → List String → Option ℚ)
    (sig : ResumeSignals) (normalized_text : String) (rules : JobRules)
    (job_description : String) : EvalResult :=
  let candidate_skills := canonicalize_skills sig.skills_raw
  let years_experience := sig.years_experience
  let highest_qualification := get_highest_qualification sig.education_entries
  let has_auth := sig.has_auth
  -- parse job rules with defaults
  let required_all := canonicalize_skills rules.required_all
  let required_any := canonicalize_skills rules.required_any
  let forbidden_keywords := rules.forbidden_keywords.map normalize_text
  let education_req := rules.education_requirements
  -- 1. forbidden keywords (strict)
  let forbidden_found := forbidden_keywords.filter (fun kw => strContains normalized_text kw)
  let check_forbidden := forbidden_found.isEmpty
  -- 2. required ALL skills (flexible: half is enough)
  let matched_all := required_all.filter (fun s => candidate_skills.contains s)
  let missing_all := required_all.filter (fun s => !candidate_skills.contains s)
  let check_all :=
    if required_all.isEmpty then true
    else decide ((matched_all.length : ℚ) / (required_all.length : ℚ) ≥ 0.5)
  -- 3. required ANY skills
  let matched_any := required_any.filter (fun s => candidate_skills.contains s)
  let missing_any := required_any.filter (fun s => !candidate_skills.contains s)
  let check_any :=
    if required_any.isEmpty then true
    else decide (matched_any.length ≥ max 1 (rules.any_min / 2))
  -- 4. experience (flexible: 80% of the requirement)
  let check_experience :=
    if rules.min_years > 0 then decide (years_experience ≥ rules.min_years * 0.8)
    else true
  -- 5. education validation
  let candidate_level_order := degreeOrderOf highest_qualification.level
  let min_qual_config := education_req.minimum_qualification
  let degree_req_config := education_req.degree_requirement
  let min_level_required := min_qual_config.level
  let check_min_level :=
    if min_level_required = "12th_diploma" then decide (candidate_level_order ≥ 2)
    else decide (candidate_level_order ≥ degreeOrderOf min_level_required)
  let check_min_grade :=
    match highest_qualification.grade with
    | some g =>
      if min_qual_config.grade.required then
        decide (g.normalized_percentage ≥ min_qual_config.grade.normalized)
      else true
    | none => true
  let check_degree_req0 :=
    if degree_req_config.enabled then
      let check_degree_level :=
        decide (candidate_level_order ≥ degreeOrderOf degree_req_config.level)
      let field_match :=
        match highest_qualification.field with
        | some f =>
          if f ≠ "" && !degree_req_config.fields.isEmpty then
            (check_field_match f degree_req_config.fields
              degree_req_config.accept_related_fields).1
          else false
        | none => false
      let check_degree_grade :=
        match degree_req_config.grade, highest_qualification.grade with
        | some gc, some g => decide (g.normalized_percentage ≥ gc.normalized)
        | _, _ => true
      check_degree_level && field_match && check_degree_grade
    else true
  let exp_substitute := education_req.alternative_paths.experience_substitute
  let check_degree_req :=
    if exp_substitute.enabled && !check_degree_req0 &&
        decide (years_experience ≥ exp_substitute.years_required) then true
    else check_degree_req0
  let check_education :=
    if education_req.enabled then check_min_level && check_min_grade && check_degree_req
    else true
  -- 6. work authorization
  let check_work_auth := if rules.require_work_auth then has_auth else true
  -- 7. similarity
  let target_skills0 := canonicalize_skills (required_all ++ required_any)
  let target_skills :=
    if target_skills0.isEmpty && job_description ≠ "" then
      canonicalize_skills (extract_skills_lexicon (normalize_text job_description))
    else target_skills0
  let similarity :=
    if target_skills.isEmpty then 1
    else compute_similarity cosine candidate_skills target_skills
  let check_similarity := decide (similarity ≥ rules.similarity_threshold)
  -- scoring
  let score : Option ℚ :=
    if rules.scoring.enabled then
      some (resume_score rules candidate_skills years_experience
        highest_qualification similarity)
    else none
  -- final decision
  let critical_gates := [check_forbidden]
  let optional_gates :=
    [check_all, check_any, check_experience, check_education, check_work_auth,
     check_similarity]
  let passed_critical := critical_gates.all (fun b => b)
  let passed_optional := optional_gates.count true
  let passed :=
    final_decision rules.scoring.enabled score rules.scoring.threshold
      passed_critical passed_optional
  let decision := if passed then "selected" else "rejected"
  { decision := decision
    score := score
    passed := passed
    passed_critical := passed_critical
    optional_gates := optional_gates
    candidate_skills := candidate_skills
    matched_required_all := matched_all
    missing_required_all := missing_all
    matched_required_any := matched_any
    missing_required_any := missing_any
    target_skills := target_skills
    similarity := similarity
    similarity_threshold := rules.similarity_threshold
    estimated_years := years_experience
    min_required_years := rules.min_years
    meets_experience := check_experience
    work_auth_required := rules.require_work_auth
    work_auth_found := has_auth
    work_auth_meets := check_work_auth
    forbidden_found := forbidden_found
    forbidden_passed := check_forbidden
    scoring_enabled := rules.scoring.enabled
    score_threshold := rules.scoring.threshold }

/-- Outcome of `evaluate_resume` itself: the empty-text short circuit (decision
"rejected", score 0.0, error message) or a full evaluation. -/
inductive EvalOutcome where
  | extractionFailed
  | evaluated (r : EvalResult)
deriving Repr, DecidableEq

/-- Python `evaluate_resume` for a resume whose extracted text is `raw_text`
(file reading is external; an unreadable file yields `raw_text = ""`). -/
def evaluate_resume (cosine : List String → List String → Option ℚ)
    (sig : ResumeSignals) (raw_text : String) (rules : JobRules)
    (job_description : String) : EvalOutcome :=
  if strTrim raw_text = "" then .extractionFailed
  else .evaluated (evaluate_resume_core cosine sig (normalize_text raw_text) rules
    job_description)

/-! ## Security utilities (utils/security.py)

bcrypt (via passlib's `CryptContext`) is external; it is modelled by a
`BcryptImpl` value whose `verify_hash` field is the library's contract that a
password verifies against its own hash. -/

structure BcryptImpl where
  hash : String → String
  verify : String → String → Bool
  verify_hash : ∀ p : String, verify p (hash p) = true

/-- Python `hash_password`: raises `ValueError` (modelled as `none`) when the
UTF-8 encoding exceeds 72 bytes, otherwise hashes the first 50 characters. -/
def hash_password (bcHash : String → String) (password : String) : Option String :=
  if password.utf8ByteSize > 72 then none
  else some (bcHash (String.mk (password.data.take 50)))

/-- Python `verify_password`: truncates the candidate to 50 characters and
verifies; the `except` branch is inside the external `bcVerify`. -/
def verify_password (bcVerify : String → String → Bool)
    (plain_password hashed_password : String) : Bool :=
  bcVerify (String.mk (plain_password.data.take 50)) hashed_password

/-! ## User registration (schemas/user.py `UserCreate`, routers/auth.py
`register`) -/

/-- The `UserCreate` request body. -/
structure UserCreate where
  name : String
  email : String
  phone : Option String := none
  role : String
  password : String
  password_confirm : String
deriving Repr, DecidableEq

/-- The validation performed by the `UserCreate` schema: the `Field`
constraints on name and password, the e-mail format check (external, passed
in as `emailOk`), the role enum, and the `password_strength` validator
(which re-checks the password length). The schema declares `password_confirm`
but contains no validator comparing it with `password`. -/
def userCreateValid (emailOk : String → Bool) (u : UserCreate) : Bool :=
  decide (2 ≤ u.name.length) && decide (u.name.length ≤ 100) &&
  emailOk u.email &&
  (u.role == "candidate" || u.role == "employer") &&
  decide (6 ≤ u.password.length) && decide (u.password.length ≤ 50)

inductive RegisterResult where
  /-- Schema validation failed (FastAPI rejects the body before the handler). -/
  | validationError
  /-- HTTP 400, e-mail already registered. -/
  | conflict (detail : String)
  /-- HTTP 201 with the created user (hashed password stored, never returned). -/
  | created (name email role hashed_password : String)
  /-- An uncaught exception in the handler (e.g. `hash_password`'s
  `ValueError`) — HTTP 500. -/
  | internalError
deriving Repr, DecidableEq

/-- `POST /auth/register`: schema validation, duplicate-e-mail check
(`emailExists` models the database query), hash, persist. -/
def register (emailOk : String → Bool) (emailExists : String → Bool)
    (bcHash : String → String) (u : UserCreate) : RegisterResult :=
  if !userCreateValid emailOk u then .validationError
  else if emailExists u.email then .conflict "Email already registered"
  else
    match hash_password bcHash u.password with
    | some h => .created u.name u.email u.role h
    | none => .internalError

/-! ## Chat (schemas/chat.py `ChatMessageCreate`, routers/chat.py
`send_message`) -/

structure ChatMessageCreate where
  message : String
  receiver_id : Option Int := none
  is_global : Bool := false
deriving Repr, DecidableEq

/-- Python truthiness of `message_data.receiver_id` (`None` and `0` are
falsy). -/
def receiverTruthy : Option Int → Bool
  | none => false
  | some n => n != 0

inductive SendResult where
  /-- HTTP 404 "Receiver not found". -/
  | notFound (detail : String)
  /-- HTTP 201: the persisted `ChatMessage` row
  (sender, receiver, text, is_global). -/
  | created (sender_id : Int) (receiver_id : Option Int) (message : String)
      (is_global : Bool)
deriving Repr, DecidableEq

/-- `POST /chat/send`: the receiver-existence check runs only when the message
is not global AND `receiver_id` is truthy; otherwise the message is persisted
as supplied. `userExists` models the user lookup. -/
def send_message (userExists : Int → Bool) (senderId : Int)
    (m : ChatMessageCreate) : SendResult :=
  if !m.is_global && receiverTruthy m.receiver_id then
    if (match m.receiver_id with
        | some r => userExists r
        | none => false) then
      .created senderId m.receiver_id m.message m.is_global
    else .notFound "Receiver not found"
  else .created senderId m.receiver_id m.message m.is_global

/-! ## Applying to a job (routers/jobs.py `apply_to_job`) -/

/-- The persisted explanation document of an `Application`: either the full
screening document, or the error fallback
`{"error": ..., "note": "Manual review required"}`. -/
inductive Explanation where
  | evalDoc (e : EvalResult)
  | errorNote (errorMsg note : String)
deriving Repr, DecidableEq

inductive ApplyResult where
  /-- HTTP 404 (job missing or inactive). -/
  | notFound (detail : String)
  /-- HTTP 400 (duplicate application, or disallowed file extension). -/
  | badRequest (detail : String)
  /-- HTTP 201: the persisted `Application` (status, score, explanation). -/
  | created (appStatus : String) (score : Option ℚ) (explanation : Explanation)
deriving Repr, DecidableEq

/-- `POST /jobs/{job_id}/apply` after authentication: job-existence check,
duplicate check, extension check, then the `try`/`except` around
`evaluate_resume` — an exception (`.error msg`) downgrades to a pending
application that is still persisted and returned with HTTP 201. The
best-effort e-mail block after persistence cannot change the response and is
omitted. -/
def apply_to_job (jobActive alreadyApplied extAllowed : Bool)
    (evalRun : Except String EvalResult) : ApplyResult :=
  if !jobActive then .notFound "Job not found or inactive"
  else if alreadyApplied then .badRequest "You have already applied to this job"
  else if !extAllowed then .badRequest "File type not allowed"
  else
    match evalRun with
    | .ok ev =>
      .created (if ev.decision == "selected" then "selected" else "rejected")
        ev.score (.evalDoc ev)
    | .error msg => .created "pending" none (.errorNote msg "Manual review required")

/-! ## CSV export (routers/jobs.py `export_applications_csv`) -/

/-- One decimal place, as Python `f"{x:.1f}"` renders the scores that occur
here (non-negative, at most 100). -/
def formatScore1 (s : ℚ) : String :=
  let t : Int := round (s * 10)
  toString (t / 10) ++ "." ++ toString (t % 10)

/-- The Score column of a CSV row:
`f"{app.score:.1f}" if app.score else 'N/A'` — the condition is Python
truthiness of the optional float, so both a missing score and a score of
exactly 0.0 render as "N/A". -/
def csvScoreCell (score : Option ℚ) : String :=
  match score with
  | some s => if s != 0 then formatScore1 s else "N/A"
  | none => "N/A"

/-- The per-application fields appearing in a CSV data row. -/
structure ApplicationRow where
  id : Nat
  name : String
  phone : String
  score : Option ℚ
  appStatus : String
deriving Repr, DecidableEq

/-- The first seven columns of a CSV data row (ID, Name, Phone, the two
optional free-text columns are elided, Score, Status). -/
def csvRow (a : ApplicationRow) : List String :=
  [toString a.id, a.name, a.phone, csvScoreCell a.score, a.appStatus]

/-! ## Projection lemmas for `evaluate_resume_core`

Each is definitional: it reads one field of the result record back as the
expression the source computes it from. -/

theorem core_decision_eq (cosine : List String → List String → Option ℚ)
    (sig : ResumeSignals) (nt : String) (rules : JobRules) (jd : String) :
    (evaluate_resume_core cosine sig nt rules jd).decision =
      (if (evaluate_resume_core cosine sig nt rules jd).passed then "selected"
       else "rejected") := rfl

theorem core_passed_eq (cosine : List String → List String → Option ℚ)
    (sig : ResumeSignals) (nt : String) (rules : JobRules) (jd : String) :
    (evaluate_resume_core cosine sig nt rules jd).passed =
      final_decision rules.scoring.enabled
        (evaluate_resume_core cosine sig nt rules jd).score
        rules.scoring.threshold
        (evaluate_resume_core cosine sig nt rules jd).passed_critical
        ((evaluate_resume_core cosine sig nt rules jd).optional_gates.count true) := rfl

theorem core_score_eq (cosine : List String → List String → Option ℚ)
    (sig : ResumeSignals) (nt : String) (rules : JobRules) (jd : String) :
    (evaluate_resume_core cosine sig nt rules jd).score =
      (if rules.scoring.enabled then
        some (resume_score rules
          (evaluate_resume_core cosine sig nt rules jd).candidate_skills
          sig.years_experience
          (get_highest_qualification sig.education_entries)
          (evaluate_resume_core cosine sig nt rules jd).similarity)
      else none) := rfl

theorem core_passed_critical_eq (cosine : List String → List String → Option ℚ)
    (sig : ResumeSignals) (nt : String) (rules : JobRules) (jd : String) :
    (evaluate_resume_core cosine sig nt rules jd).passed_critical =
      (((rules.forbidden_keywords.map normalize_text).filter
        (fun kw => strContains nt kw)).isEmpty && true) := rfl

/-- The critical gate passes exactly when no configured forbidden keyword
(normalized) occurs in the normalized resume text. -/
theorem forbidden_passed_iff (cosine : List String → List String → Option ℚ)
    (sig : ResumeSignals) (nt : String) (rules : JobRules) (jd : String) :
    ((evaluate_resume_core cosine sig nt rules jd).passed_critical = true ↔
      ∀ kw ∈ rules.forbidden_keywords, strContains nt (normalize_text kw) = false) := by
  rw [core_passed_critical_eq]
  simp [List.isEmpty_iff, List.filter_eq_nil_iff]

/-- The score produced by the scoring block never exceeds 100 (the final
`min(100.0, round(score, 2))`). -/
theorem resume_score_le_100 (rules : JobRules) (cs : List String) (ye : ℚ)
    (hq : Qualification) (sim : ℚ) : resume_score rules cs ye hq sim ≤ 100 := by
  show min 100 _ ≤ 100
  exact min_le_left _ _

/-! ## Shared concrete instances used by the witnesses -/

/-- A cosine-similarity oracle that always fails (the `except` branch). -/
def cos0 : List String → List String → Option ℚ := fun _ _ => none

/-- Extraction signals of a resume with no recognized signal at all. -/
def sig0 : ResumeSignals :=
  { skills_raw := [], years_experience := 0, education_entries := [], has_auth := false }

/-- A trivial stand-in satisfying the bcrypt contract. -/
def bcId : BcryptImpl where
  hash := fun s => s
  verify := fun p h => p == h
  verify_hash := by intro p; simp

/-! ## The claims -/

/-- C2: grade extraction on the spec's four examples. The code disagrees with
the claim on the first one: `extract_grade_from_text "CGPA 8.5"` returns no
grade at all (not 85.0), because the text is lowercased by `normalize_text`
while the `CGPA`-prefix pattern is spelled upper-case only, leaving that
pattern unable to match anything; the remaining three behave as claimed
("3.6 GPA" gives 90.0, "72%" gives 72.0, and a CGPA value of 11 is rejected
as out of range and no pattern family uses it). -/
theorem c2_grade_extraction_eval :
    extract_grade_from_text "CGPA 8.5" = none ∧
    extract_grade_from_text "3.6 GPA" =
      some { raw_value := 3.6, grade_type := "gpa_4", normalized_percentage := 90 } ∧
    extract_grade_from_text "72%" =
      some { raw_value := 72, grade_type := "percentage", normalized_percentage := 72 } ∧
    extract_grade_from_text "11 cgpa" = none := by
  refine ⟨?_, ?_, ?_, ?_⟩ <;> with_unfolding_all decide

/-- The registration payload with mismatched password confirmation. -/
def mismatchedUser : UserCreate :=
  { name := "Alice", email := "alice@example.com", role := "candidate",
    password := "secret1", password_confirm := "different7" }

/-- C3: the `UserCreate` schema carries no validator comparing
`password_confirm` with `password`, and `register` never compares them either,
so a registration whose confirmation differs from the password passes
validation and creates the account (HTTP 201) instead of failing with
InvalidInput. -/
theorem c3_register_accepts_mismatched_confirm :
    mismatchedUser.password ≠ mismatchedUser.password_confirm ∧
    userCreateValid (fun _ => true) mismatchedUser = true ∧
    register (fun _ => true) (fun _ => false) (fun s => s) mismatchedUser =
      .created "Alice" "alice@example.com" "candidate" "secret1" := by
  refine ⟨by decide, by decide, by decide⟩

/-- C5 counterexample: a direct (non-global) message with no receiver at all
is persisted — the receiver-existence check is skipped because
`message_data.receiver_id` is falsy, even though no user exists. -/
theorem c5_null_receiver_counterexample :
    send_message (fun _ => false) 1
      ({ message := "hi", receiver_id := none, is_global := false }) =
      .created 1 none "hi" false := by decide

/-- C5 (amended): when a non-global message supplies a truthy (non-null,
non-zero) receiver id, the receiver must exist — otherwise the endpoint
returns NotFound; with a null receiver id the non-global message is persisted
receiver-less. -/
theorem c5_receiver_check (userExists : Int → Bool) (senderId r : Int)
    (m : ChatMessageCreate) (hglobal : m.is_global = false)
    (hrecv : m.receiver_id = some r) (hr : r ≠ 0) :
    (userExists r = false →
      send_message userExists senderId m = .notFound "Receiver not found") ∧
    (userExists r = true →
      send_message userExists senderId m = .created senderId (some r) m.message false) := by
  constructor <;> intro h <;>
    simp [send_message, hglobal, hrecv, receiverTruthy, hr, h]

theorem c5_witness :
    send_message (fun i => decide (i = 2)) 1
      ({ message := "yo", receiver_id := some 2, is_global := false }) =
      .created 1 (some 2) "yo" false :=
  (c5_receiver_check (fun i => decide (i = 2)) 1 2
    ({ message := "yo", receiver_id := some 2, is_global := false })
    rfl rfl (by decide)).2 (by decide)

/-- C6: when the pre-checks pass and `evaluate_resume` raises, the endpoint
still persists an application with status pending, no score, and an
explanation carrying the error message plus the manual-review note, returned
with HTTP 201. -/
theorem c6_screening_failure_downgraded (jobActive alreadyApplied extAllowed : Bool)
    (msg : String) (h1 : jobActive = true) (h2 : alreadyApplied = false)
    (h3 : extAllowed = true) :
    apply_to_job jobActive alreadyApplied extAllowed (.error msg) =
      .created "pending" none (.errorNote msg "Manual review required") := by
  subst h1; subst h2; subst h3; rfl

theorem c6_witness :
    apply_to_job true false true (.error "boom") =
      .created "pending" none (.errorNote "boom" "Manual review required") :=
  c6_screening_failure_downgraded true false true "boom" rfl rfl rfl

/-- C10: the CSV Score column renders a persisted score of exactly 0.0 as
"N/A", identical to a missing score, because the formatting condition is
Python truthiness of the float. -/
theorem c10_zero_score_renders_na :
    csvScoreCell (some 0) = "N/A" ∧ csvScoreCell none = "N/A" ∧
    csvScoreCell (some 0) ≠ "0.0" ∧
    csvRow ({ id := 1, name := "A", phone := "1234567890", score := some 0,
              appStatus := "rejected" }) =
      ["1", "A", "1234567890", "N/A", "rejected"] := by
  refine ⟨rfl, rfl, by decide, rfl⟩

/-- A 25-character password of three-byte characters: within the schema's
6–50 character bounds, but 75 UTF-8 bytes. -/
def longUnicodePassword : String := String.mk (List.replicate 25 '€')

/-- C4 counterexample: this 6–50-character password exceeds the 72-byte bcrypt
limit, so `hash_password` raises (returns no hash) instead of producing one —
`verify_password(p, hash_password(p))` cannot return true for it. The
byte-length check precedes any hashing, so the stub hash function is never
reached. -/
theorem c4_byte_limit_counterexample :
    6 ≤ longUnicodePassword.length ∧ longUnicodePassword.length ≤ 50 ∧
    longUnicodePassword.utf8ByteSize = 75 ∧
    hash_password (fun s => s) longUnicodePassword = none := by
  refine ⟨by decide, by decide, by decide, by decide⟩

/-- C4 (amended): for every password of 6–50 characters whose UTF-8 encoding
fits the 72-byte limit, hashing succeeds and the password verifies against its
own hash; and any two passwords within the byte limit that agree on their
first 50 characters verify against each other's hashes (the truncation
policy). `bc` is the external bcrypt implementation with its round-trip
contract. -/
theorem c4_truncation_roundtrip (bc : BcryptImpl) :
    (∀ p : String, 6 ≤ p.length → p.length ≤ 50 → p.utf8ByteSize ≤ 72 →
      ∃ h, hash_password bc.hash p = some h ∧
        verify_password bc.verify p h = true) ∧
    (∀ p q : String, p.data.take 50 = q.data.take 50 →
      p.utf8ByteSize ≤ 72 → q.utf8ByteSize ≤ 72 →
      ∀ h, hash_password bc.hash q = some h →
        verify_password bc.verify p h = true) := by
  constructor
  · intro p _ _ hb
    refine ⟨bc.hash (String.mk (p.data.take 50)), ?_, ?_⟩
    · unfold hash_password
      rw [if_neg (by omega)]
    · exact bc.verify_hash _
  · intro p q hpq hbp hbq h hh
    unfold hash_password at hh
    rw [if_neg (by omega)] at hh
    injection hh with hh
    subst hh
    unfold verify_password
    rw [hpq]
    exact bc.verify_hash _

theorem c4_witness :
    ∃ h, hash_password bcId.hash "abcdef" = some h ∧
      verify_password bcId.verify "abcdef" h = true :=
  (c4_truncation_roundtrip bcId).1 "abcdef" (by decide) (by decide) (by decide)

set_option maxHeartbeats 1000000 in
/-- C7: the experience estimate is exactly the maximum of the largest explicit
`N years` mention, the largest single date-range duration, and the sum of all
date-range durations (the first two floored at 0, as the code folds them from
0); in particular "2018 - 2022" estimates to 4 years for any current year. -/
theorem c7_experience_is_max_of_three :
    (∀ (currentYear : Int) (text : String),
      estimate_years_of_experience currentYear text =
        ((max (explicitMentionMax text)
          (max (largestRangeDuration currentYear text)
            (totalRangeDuration currentYear text)) : Int) : ℚ)) ∧
    (∀ currentYear : Int,
      estimate_years_of_experience currentYear "2018 - 2022" = 4) := by
  constructor
  · intro cy text
    unfold estimate_years_of_experience explicitMentionMax largestRangeDuration
      totalRangeDuration
    by_cases h : dateRangeMatches text = []
    · simp [h]
    · simp [h, max_assoc]
  · intro cy
    with_unfolding_all rfl

theorem c7_witness : estimate_years_of_experience 2026 "2018 - 2022" = 4 :=
  c7_experience_is_max_of_three.2 2026

/-- C8: with scoring enabled, the returned score never exceeds 100 — the
weighted sum is clamped by `min(100.0, round(score, 2))`. -/
theorem c8_score_capped (cosine : List String → List String → Option ℚ)
    (sig : ResumeSignals) (nt : String) (rules : JobRules) (jd : String)
    (hen : rules.scoring.enabled = true) :
    ∀ s : ℚ, (evaluate_resume_core cosine sig nt rules jd).score = some s →
      s ≤ 100 := by
  intro s hs
  rw [core_score_eq, hen, if_pos rfl] at hs
  injection hs with hs
  rw [← hs]
  exact resume_score_le_100 ..

set_option maxHeartbeats 1000000 in
theorem c8_witness :
    (evaluate_resume_core cos0 sig0 "text" ({}) "").score = some 100 ∧
      (100 : ℚ) ≤ 100 :=
  ⟨by with_unfolding_all decide,
   c8_score_capped cos0 sig0 "text" ({}) "" rfl 100 (by with_unfolding_all decide)⟩

theorem round2_100 : round2 (100 : ℚ) = 100 := by with_unfolding_all decide

/-- With the default (empty) rules and similarity 1, every scoring component
contributes its full default weight: 25 + 15 + 15 + 20 + 25 = 100. -/
theorem resume_score_empty_rules (cs : List String) (ye : ℚ) (hq : Qualification) :
    resume_score ({}) cs ye hq 1 = 100 := by
  have h0 : canonicalize_skills ([] : List String) = [] := rfl
  simp only [resume_score, h0, List.filter_nil, List.isEmpty_nil, Bool.not_true,
    Bool.false_and, if_true, if_false]
  norm_num [round2_100]

set_option maxHeartbeats 4000000 in
/-- C9: with non-empty extracted text, an empty rules dictionary and an empty
job description, every resume is selected with score exactly 100: the six
optional gates pass trivially, the similarity defaults to 1.0 because there
are no target skills, and each scoring component contributes its full default
weight (25 + 15 + 15 + 20 + 25). -/
theorem c9_empty_rules_full_score (cosine : List String → List String → Option ℚ)
    (sig : ResumeSignals) (raw_text : String) (h : strTrim raw_text ≠ "") :
    ∃ r, evaluate_resume cosine sig raw_text ({}) "" = .evaluated r ∧
      r.decision = "selected" ∧ r.score = some 100 ∧
      r.optional_gates = [true, true, true, true, true, true] ∧
      r.similarity = 1 ∧ r.target_skills = [] := by
  have hsim : (evaluate_resume_core cosine sig (normalize_text raw_text) ({})
      "").similarity = 1 := rfl
  have htgt : (evaluate_resume_core cosine sig (normalize_text raw_text) ({})
      "").target_skills = [] := rfl
  have hg : (evaluate_resume_core cosine sig (normalize_text raw_text) ({})
      "").optional_gates = [true, true, true, true, true, true] := by
    with_unfolding_all rfl
  have hpc : (evaluate_resume_core cosine sig (normalize_text raw_text) ({})
      "").passed_critical = true := rfl
  have hs : (evaluate_resume_core cosine sig (normalize_text raw_text) ({})
      "").score = some 100 := by
    have h1 : (evaluate_resume_core cosine sig (normalize_text raw_text) ({})
        "").score = some (resume_score ({})
          (evaluate_resume_core cosine sig (normalize_text raw_text) ({})
            "").candidate_skills
          sig.years_experience (get_highest_qualification sig.education_entries)
          (evaluate_resume_core cosine sig (normalize_text raw_text) ({})
            "").similarity) := rfl
    rw [h1, hsim, resume_score_empty_rules]
  have hd : (evaluate_resume_core cosine sig (normalize_text raw_text) ({})
      "").decision = "selected" := by
    rw [core_decision_eq, core_passed_eq, hs, hg, hpc]
    with_unfolding_all decide
  refine ⟨evaluate_resume_core cosine sig (normalize_text raw_text) ({}) "",
    ?_, hd, hs, hg, hsim, htgt⟩
  unfold evaluate_resume
  rw [if_neg h]

theorem c9_witness :
    ∃ r, evaluate_resume cos0 sig0 "resume text" ({}) "" = .evaluated r ∧
      r.decision = "selected" ∧ r.score = some 100 ∧
      r.optional_gates = [true, true, true, true, true, true] ∧
      r.similarity = 1 ∧ r.target_skills = [] :=
  c9_empty_rules_full_score cos0 sig0 "resume text" (by decide)

/-- C1: the final decision rule. With scoring enabled, the evaluation is
"selected" exactly when no configured forbidden keyword occurs in the
normalized resume text and (the computed score reaches the configured
threshold or at least 4 of the 6 optional gates pass); with scoring disabled,
exactly when the forbidden-keyword gate passes and at least 4 of the 6
optional gates pass. -/
theorem c1_final_decision_rule (cosine : List String → List String → Option ℚ)
    (sig : ResumeSignals) (nt : String) (rules : JobRules) (jd : String) :
    (rules.scoring.enabled = true →
      ((evaluate_resume_core cosine sig nt rules jd).decision = "selected" ↔
        ((∀ kw ∈ rules.forbidden_keywords,
            strContains nt (normalize_text kw) = false) ∧
         ((∃ s, (evaluate_resume_core cosine sig nt rules jd).score = some s ∧
            rules.scoring.threshold ≤ s) ∨
          4 ≤ ((evaluate_resume_core cosine sig nt rules jd).optional_gates.count
            true))))) ∧
    (rules.scoring.enabled = false →
      ((evaluate_resume_core cosine sig nt rules jd).decision = "selected" ↔
        ((∀ kw ∈ rules.forbidden_keywords,
            strContains nt (normalize_text kw) = false) ∧
         4 ≤ ((evaluate_resume_core cosine sig nt rules jd).optional_gates.count
            true)))) := by
  have hsel : (evaluate_resume_core cosine sig nt rules jd).decision = "selected" ↔
      (evaluate_resume_core cosine sig nt rules jd).passed = true := by
    rw [core_decision_eq]
    cases h : (evaluate_resume_core cosine sig nt rules jd).passed <;> simp [h]
  have hforb := forbidden_passed_iff cosine sig nt rules jd
  have hpass := core_passed_eq cosine sig nt rules jd
  constructor
  · intro hen
    have hscore := core_score_eq cosine sig nt rules jd
    rw [hen, if_pos rfl] at hscore
    rw [hsel, hpass, hen, hscore]
    simp only [final_decision, if_true, eq_self_iff_true, Bool.and_eq_true,
      Bool.or_eq_true, decide_eq_true_eq, ge_iff_le]
    rw [hforb]
    constructor
    · rintro ⟨ha, hb⟩
      refine ⟨ha, ?_⟩
      rcases hb with hb | hb
      · exact Or.inl ⟨_, rfl, hb⟩
      · exact Or.inr hb
    · rintro ⟨ha, hb⟩
      refine ⟨ha, ?_⟩
      rcases hb with ⟨s, hs, hle⟩ | hb
      · injection hs with hs
        exact Or.inl (hs ▸ hle)
      · exact Or.inr hb
  · intro hen
    rw [hsel, hpass, hen]
    simp only [final_decision, Bool.false_eq_true, if_false, Bool.and_eq_true,
      decide_eq_true_eq, ge_iff_le]
    rw [hforb]

theorem c1_witness :
    (evaluate_resume_core cos0 sig0 "resume text" ({}) "").decision = "selected" :=
  ((c1_final_decision_rule cos0 sig0 "resume text" ({}) "").1 rfl).mpr
    ⟨by simp, Or.inl ⟨100, by with_unfolding_all decide, by norm_num⟩⟩

end JobPortal
